import Mathlib

/-!
Shallow embedding of the multi-tenant restaurant back-office server actions
(`src/lib/server/actions.ts`) together with the table shapes of the drizzle
schema. Database tables are modelled as lists of rows, fallible server
actions as functions into `Except String DB`, and the `crypto.randomUUID()`
fresh identifiers as explicit string parameters.
-/

deriving instance DecidableEq for Except

namespace Asistent

/-- `users.role` enum of the schema: `['superadmin','admin','seller','waiter']`. -/
inductive Role where
  | superadmin
  | admin
  | seller
  | waiter
deriving DecidableEq, Repr

/-- `sales.status` enum of the schema: `['paid','pending']`. -/
inductive SaleStatus where
  | paid
  | pending
deriving DecidableEq, Repr

/-- A row of the `restaurants` table. -/
structure Restaurant where
  id : String
  name : String
  address : String
  phone : String
deriving DecidableEq, Repr

/-- A row of the `users` table. -/
structure User where
  id : String
  name : String
  email : String
  password : String
  role : Role
  restaurantId : String
deriving DecidableEq, Repr

/-- A row of the `products` table. `decimal(10,2)` prices are modelled in cents. -/
structure Product where
  id : String
  name : String
  price : Nat
  category : String
  restaurantId : String
deriving DecidableEq, Repr

/-- One entry of a sale's `items` JSON column (an `OrderItem` snapshot). -/
structure OrderItem where
  productId : String
  name : String
  price : Nat
  quantity : Nat
deriving DecidableEq, Repr

/-- A row of the `sales` table. `decimal(10,2)` totals in cents, dates as Nat. -/
structure Sale where
  id : String
  customerName : String
  tableNumber : String
  items : List OrderItem
  totalPrice : Nat
  saleDate : Nat
  userId : String
  userName : String
  restaurantId : String
  status : SaleStatus
deriving DecidableEq, Repr

/-- The database state: the tables the examined actions touch. -/
structure DB where
  restaurants : List Restaurant
  users : List User
  products : List Product
  sales : List Sale
deriving DecidableEq, Repr

/-- Number of user rows carrying a given email
(`select count() from users where email = e`). -/
def emailCount (us : List User) (e : String) : Nat :=
  (us.filter fun u => decide (u.email = e)).length

/-- The user rows whose role is `superadmin`. -/
def superadmins (us : List User) : List User :=
  us.filter fun u => decide (u.role = Role.superadmin)

/-- `select count() from users where role = 'superadmin'`. -/
def countSuperadmins (us : List User) : Nat :=
  (superadmins us).length

/-- `select count() from users where restaurantId = rid`. -/
def countUsersInRestaurant (us : List User) (rid : String) : Nat :=
  (us.filter fun u => decide (u.restaurantId = rid)).length

/-- `db.query.users.findFirst({ where: eq(users.id, i) })`. -/
def findUserById (us : List User) (i : String) : Option User :=
  us.find? fun u => decide (u.id = i)

/-- `delete from users where id = i`. -/
def performDelete (db : DB) (i : String) : DB :=
  { db with users := db.users.filter fun u => decide (u.id ≠ i) }

/-- The state an `Except String DB` action leaves behind: the new state on
success, the unchanged input state when the action threw. -/
def stateAfter (db : DB) : Except String DB → DB
  | Except.ok db' => db'
  | Except.error _ => db

/-- The role-dependent guard block of `deleteUser` (actions.ts lines 184-207),
given the target row and the acting user's role (`currentUser?.role`).
Returns the error message it throws, or `none` when deletion may proceed. -/
def deleteUserCheck (us : List User) (userToDelete : User) (currentRole : Option Role) :
    Option String :=
  if currentRole = some Role.superadmin then
    if userToDelete.role = Role.superadmin then
      if countSuperadmins us ≤ 1 then
        some "No se puede eliminar al único superadministrador del sistema."
      else none
    else none
  else if currentRole = some Role.admin then
    if userToDelete.role = Role.admin ∨ userToDelete.role = Role.superadmin then
      some "No tienes permisos para eliminar a un administrador."
    else if countUsersInRestaurant us userToDelete.restaurantId ≤ 1 then
      some "No se puede eliminar al único usuario de un restaurante. Elimina el restaurante en su lugar."
    else none
  else some "No tienes permisos para eliminar usuarios."

/-- `deleteUser(id, currentUserId)` of actions.ts. -/
def deleteUser (db : DB) (i currentUserId : String) : Except String DB :=
  if i = currentUserId then
    Except.error "No puedes eliminar tu propia cuenta de usuario."
  else
    match findUserById db.users i with
    | none => Except.error "El usuario que intentas eliminar no existe."
    | some userToDelete =>
      match deleteUserCheck db.users userToDelete
          ((findUserById db.users currentUserId).map User.role) with
      | some msg => Except.error msg
      | none => Except.ok (performDelete db i)

/-- The restaurant fields of `createRestaurant` / `updateRestaurant`
(`Omit<Restaurant,'id'|'users'>`). -/
structure RestaurantData where
  name : String
  address : String
  phone : String
deriving DecidableEq, Repr

/-- The admin fields of `createRestaurant` (`Omit<User,'id'|'role'>` minus the
restaurant reference, which the action assigns itself). -/
structure AdminData where
  name : String
  email : String
  password : String
deriving DecidableEq, Repr

/-- `createRestaurant(restaurantData, adminData)` of actions.ts.  The two
`crypto.randomUUID()` results are the explicit `restaurantId` / `newUserId`
parameters. -/
def createRestaurant (db : DB) (restaurantData : RestaurantData) (adminData : AdminData)
    (restaurantId newUserId : String) : Except String DB :=
  if emailCount db.users adminData.email > 0 then
    Except.error "El correo electrónico ya está en uso por otro usuario en el sistema."
  else
    let isFirstRestaurant := db.restaurants.length = 0
    let newRestaurant : Restaurant :=
      { id := restaurantId, name := restaurantData.name,
        address := restaurantData.address, phone := restaurantData.phone }
    let newUser : User :=
      { id := newUserId, name := adminData.name, email := adminData.email,
        password := adminData.password,
        role := if isFirstRestaurant then Role.superadmin else Role.admin,
        restaurantId := restaurantId }
    Except.ok { db with
      restaurants := db.restaurants ++ [newRestaurant],
      users := db.users ++ [newUser] }

/-- The payload of `addUser` (`Omit<User,'id'> & { restaurantId: string }`). -/
structure NewUserData where
  name : String
  email : String
  password : String
  role : Role
  restaurantId : String
deriving DecidableEq, Repr

/-- `addUser(userData)` of actions.ts; `newId` is the `crypto.randomUUID()`. -/
def addUser (db : DB) (userData : NewUserData) (newId : String) : Except String DB :=
  if emailCount db.users userData.email > 0 then
    Except.error "El correo electrónico ya está en uso en el sistema."
  else
    let newUser : User :=
      { id := newId, name := userData.name, email := userData.email,
        password := userData.password, role := userData.role,
        restaurantId := userData.restaurantId }
    Except.ok { db with users := db.users ++ [newUser] }

/-- The payload of `updateUser` (`Partial<Omit<User,'id'>>`): absent fields
are `none`. -/
structure UserUpdate where
  name : Option String := none
  email : Option String := none
  password : Option String := none
  role : Option Role := none
  restaurantId : Option String := none
deriving DecidableEq, Repr

/-- The effect of `update(users).set(userData)` on one row: supplied fields
overwrite, absent fields keep the stored value. -/
def applyUserUpdate (d : UserUpdate) (u : User) : User :=
  { id := u.id,
    name := d.name.getD u.name,
    email := d.email.getD u.email,
    password := d.password.getD u.password,
    role := d.role.getD u.role,
    restaurantId := d.restaurantId.getD u.restaurantId }

/-- The unconditional write part of `updateUser`. -/
def updateUserWrite (db : DB) (i : String) (d : UserUpdate) : DB :=
  { db with users := db.users.map fun u => if u.id = i then applyUserUpdate d u else u }

/-- `updateUser(id, userData)` of actions.ts: when an email is supplied it
must not belong to any OTHER user (`eq(users.email,e) and not(eq(users.id,id))`). -/
def updateUser (db : DB) (i : String) (d : UserUpdate) : Except String DB :=
  match d.email with
  | some e =>
    match db.users.find? (fun u => decide (u.email = e ∧ u.id ≠ i)) with
    | some _ =>
      Except.error "El correo electrónico ya está en uso por otro usuario en el sistema."
    | none => Except.ok (updateUserWrite db i d)
  | none => Except.ok (updateUserWrite db i d)

/-- The effect of `update(restaurants).set(restaurantData)` on one row. -/
def applyRestaurantUpdate (d : RestaurantData) (r : Restaurant) : Restaurant :=
  { id := r.id, name := d.name, address := d.address, phone := d.phone }

/-- The optional `adminData` argument of `updateRestaurant`
(`{id: string, email: string, password?: string}`). -/
structure AdminUpdate where
  id : String
  email : String
  password : Option String := none
deriving DecidableEq, Repr

/-- The first step of `updateRestaurant`: update the restaurant row when a
(non-empty) partial restaurant object was supplied. -/
def restaurantWriteStep (db : DB) (i : String) : Option RestaurantData → DB
  | some rd =>
    { db with restaurants :=
        db.restaurants.map fun r => if r.id = i then applyRestaurantUpdate rd r else r }
  | none => db

/-- The password `updateRestaurant` writes for the admin row: the supplied
one when present and at least 6 characters long
(`adminData.password && adminData.password.length >= 6`), the stored one
otherwise. -/
def adminPasswordValue (a : AdminUpdate) (u : User) : String :=
  match a.password with
  | some p => if 6 ≤ p.length then p else u.password
  | none => u.password

/-- The admin-row write of `updateRestaurant`:
`update(users).set({email, password?}).where(eq(users.id, adminData.id))`. -/
def adminEmailPasswordWrite (us : List User) (a : AdminUpdate) : List User :=
  us.map fun u =>
    if u.id = a.id then { u with email := a.email, password := adminPasswordValue a u }
    else u

/-- `updateRestaurant(id, restaurantData, adminData?)` of actions.ts.
`restaurantData` is `none` when the partial object is empty
(`Object.keys(restaurantData).length > 0` fails); the transaction rolls every
write back when the email check throws, which the `Except.error` return
models. -/
def updateRestaurant (db : DB) (i : String) (restaurantData : Option RestaurantData) :
    Option AdminUpdate → Except String DB
  | some a =>
    if a.id ≠ "" then
      match (restaurantWriteStep db i restaurantData).users.find?
          (fun u => decide (u.email = a.email ∧ u.id ≠ a.id)) with
      | some _ =>
        Except.error "El correo electrónico ya está registrado por otro usuario."
      | none =>
        Except.ok { restaurantWriteStep db i restaurantData with
          users := adminEmailPasswordWrite (restaurantWriteStep db i restaurantData).users a }
    else Except.ok (restaurantWriteStep db i restaurantData)
  | none => Except.ok (restaurantWriteStep db i restaurantData)

/-- `getProductsForRestaurant(restaurantId)` of actions.ts: the literal
string `'all'` returns the unfiltered table. -/
def getProductsForRestaurant (db : DB) (restaurantId : String) : List Product :=
  if restaurantId = "all" then db.products
  else db.products.filter fun p => decide (p.restaurantId = restaurantId)

/-- `getSalesForRestaurant(restaurantId)` of actions.ts. -/
def getSalesForRestaurant (db : DB) (restaurantId : String) : List Sale :=
  if restaurantId = "all" then db.sales
  else db.sales.filter fun s => decide (s.restaurantId = restaurantId)

/-- The payload of `addSale` (`Omit<Sale,'id'>`). -/
structure SaleData where
  customerName : String
  tableNumber : String
  items : List OrderItem
  totalPrice : Nat
  saleDate : Nat
  userId : String
  userName : String
  restaurantId : String
  status : SaleStatus
deriving DecidableEq, Repr

/-- `addSale(sale)` of actions.ts: inserts the supplied sale with a fresh id
and returns the stored row; no further computation happens. -/
def addSale (db : DB) (sale : SaleData) (newId : String) : DB × Sale :=
  let newSale : Sale :=
    { id := newId, customerName := sale.customerName, tableNumber := sale.tableNumber,
      items := sale.items, totalPrice := sale.totalPrice, saleDate := sale.saleDate,
      userId := sale.userId, userName := sale.userName,
      restaurantId := sale.restaurantId, status := sale.status }
  ({ db with sales := db.sales ++ [newSale] }, newSale)

/-- Modelled from the spec: the sum of `item.price × item.quantity` over a
sale's items, against which the spec says `totalPrice` is validated. -/
def itemsTotal (items : List OrderItem) : Nat :=
  (items.map fun it => it.price * it.quantity).sum

/-- Pairwise email uniqueness of the users table — the `users.email UNIQUE`
constraint of the schema. -/
def uniqueEmails (us : List User) : Prop :=
  ∀ u ∈ us, ∀ v ∈ us, u.email = v.email → u = v

/-! Concrete states used to evaluate the actions on explicit inputs. -/

/-- An empty database. -/
def emptyDB : DB := ⟨[], [], [], []⟩

/-- The state `createRestaurant` produces from `emptyDB` (first registration). -/
def bootDB : DB :=
  { restaurants := [⟨"r1", "R", "d", "p"⟩],
    users := [⟨"u1", "Ana", "a@x", "secret123", Role.superadmin, "r1"⟩],
    products := [], sales := [] }

/-- A lone superadmin next to a waiter, in one restaurant. -/
def soloSuper : User := ⟨"u1", "S", "s@x", "pw", Role.superadmin, "r1"⟩

/-- A waiter in `soloDB`. -/
def soloWaiter : User := ⟨"u2", "W", "w@x", "pw", Role.waiter, "r1"⟩

/-- One restaurant whose only superadmin is `soloSuper`. -/
def soloDB : DB :=
  { restaurants := [⟨"r1", "R", "a", "p"⟩],
    users := [soloSuper, soloWaiter],
    products := [], sales := [] }

/-- A seller whose home restaurant is `"A"`. -/
def sellerA : User := ⟨"s1", "Se", "s@x", "pw", Role.seller, "A"⟩

/-- A product row owned by restaurant `"B"`. -/
def prodB : Product := ⟨"p1", "X", 100, "c", "B"⟩

/-- A sale row owned by restaurant `"B"`. -/
def saleB : Sale := ⟨"v1", "C", "t1", [], 100, 0, "u9", "U", "B", SaleStatus.paid⟩

/-- Two restaurants; the only user is `sellerA`, the only product and sale
belong to restaurant `"B"`. -/
def crossDB : DB :=
  { restaurants := [⟨"A", "RA", "a", "p"⟩, ⟨"B", "RB", "a", "p"⟩],
    users := [sellerA],
    products := [prodB], sales := [saleB] }

/-- An admin whose home restaurant is `"A"`. -/
def adminA : User := ⟨"a1", "Ad", "a@x", "pw", Role.admin, "A"⟩

/-- A seller of restaurant `"B"`. -/
def sellerB : User := ⟨"s1", "Se", "s@x", "pw", Role.seller, "B"⟩

/-- A waiter of restaurant `"B"`. -/
def waiterB : User := ⟨"w1", "Wa", "w@x", "pw", Role.waiter, "B"⟩

/-- `adminA` in restaurant `"A"`, `sellerB` and `waiterB` in restaurant `"B"`. -/
def twoTenantDB : DB :=
  { restaurants := [⟨"A", "RA", "a", "p"⟩, ⟨"B", "RB", "a", "p"⟩],
    users := [adminA, sellerB, waiterB],
    products := [], sales := [] }

/-- A superadmin of restaurant `"R1"`. -/
def superR1 : User := ⟨"sa1", "S", "sa@x", "pw", Role.superadmin, "R1"⟩

/-- The sole user of restaurant `"R2"`. -/
def soleWaiterR2 : User := ⟨"w1", "W", "w@x", "pw", Role.waiter, "R2"⟩

/-- Two restaurants; `soleWaiterR2` is the last remaining user of `"R2"`. -/
def lastUserDB : DB :=
  { restaurants := [⟨"R1", "RA", "a", "p"⟩, ⟨"R2", "RB", "a", "p"⟩],
    users := [superR1, soleWaiterR2],
    products := [], sales := [] }

/-- A sale payload whose `totalPrice` (9999) differs from the items sum (2550). -/
def mismatchedSale : SaleData :=
  ⟨"C", "t3", [⟨"p1", "X", 1000, 2⟩, ⟨"p2", "Y", 550, 1⟩], 9999, 0, "u1", "U", "A",
    SaleStatus.pending⟩

end Asistent


namespace Asistent

/-! Helper lemmas about the row-lookup primitives. -/

theorem findUserById_some (us : List User) (i : String) (u : User)
    (h : findUserById us i = some u) : u ∈ us ∧ u.id = i := by
  unfold findUserById at h
  have hm := List.mem_of_find?_eq_some h
  have hp := List.find?_some h
  exact ⟨hm, by simpa using hp⟩

theorem emailCount_pos (us : List User) (e : String)
    (h : ∃ u ∈ us, u.email = e) : 0 < emailCount us e := by
  obtain ⟨u, hm, he⟩ := h
  have : u ∈ us.filter fun v => decide (v.email = e) :=
    List.mem_filter.mpr ⟨hm, by simp [he]⟩
  exact List.length_pos.mpr (List.ne_nil_of_mem this)

theorem deleteUserCheck_superadmin_target (us : List User) (t : User) (cr : Option Role)
    (hrole : t.role = Role.superadmin) (hcount : countSuperadmins us ≤ 1) :
    (deleteUserCheck us t cr).isSome = true := by
  unfold deleteUserCheck
  by_cases h1 : cr = some Role.superadmin
  · simp [h1, hrole, hcount]
  · by_cases h2 : cr = some Role.admin
    · simp [h1, h2, hrole]
    · simp [h1, h2]

/-- C1: every `deleteUser` call whose target is a superadmin while the
system-wide superadmin count is at most 1 throws, and the set (hence count)
of superadmin rows is exactly the same afterwards. -/
theorem deleteUser_last_superadmin_denied (db : DB) (i cu : String) (t : User)
    (hfind : findUserById db.users i = some t)
    (hrole : t.role = Role.superadmin)
    (hcount : countSuperadmins db.users ≤ 1) :
    (∃ msg, deleteUser db i cu = Except.error msg) ∧
      superadmins (stateAfter db (deleteUser db i cu)).users = superadmins db.users := by
  have herr : ∃ msg, deleteUser db i cu = Except.error msg := by
    unfold deleteUser
    by_cases hic : i = cu
    · rw [if_pos hic]; exact ⟨_, rfl⟩
    · rw [if_neg hic]
      obtain ⟨msg, hmsg⟩ := Option.isSome_iff_exists.mp
        (deleteUserCheck_superadmin_target db.users t
          ((findUserById db.users cu).map User.role) hrole hcount)
      simp only [hfind, hmsg]
      exact ⟨msg, rfl⟩
  refine ⟨herr, ?_⟩
  obtain ⟨msg, hmsg⟩ := herr
  rw [hmsg]
  rfl

/-- Witness for C1 on a concrete state: `soloDB` holds a single superadmin
`soloSuper`; deleting it (as `soloWaiter`) throws and leaves the superadmin
rows untouched. -/
theorem deleteUser_last_superadmin_denied_witness :
    (∃ msg, deleteUser soloDB "u1" "u2" = Except.error msg) ∧
      superadmins (stateAfter soloDB (deleteUser soloDB "u1" "u2")).users =
        superadmins soloDB.users :=
  deleteUser_last_superadmin_denied soloDB "u1" "u2" soloSuper (by decide) (by decide)
    (by decide)

/-- C2: whenever `createRestaurant` succeeds, the admin user inserted next to
the restaurant has role `superadmin` exactly when the restaurants table was
empty at call time, and role `admin` otherwise. -/
theorem createRestaurant_bootstrap_role (db : DB) (rd : RestaurantData) (ad : AdminData)
    (rid uid : String) (db' : DB)
    (hok : createRestaurant db rd ad rid uid = Except.ok db') :
    ∃ u : User, db'.users = db.users ++ [u] ∧
      u.role = (if db.restaurants.length = 0 then Role.superadmin else Role.admin) ∧
      u.email = ad.email ∧ u.restaurantId = rid ∧ u.id = uid := by
  unfold createRestaurant at hok
  by_cases h : emailCount db.users ad.email > 0
  · rw [if_pos h] at hok; cases hok
  · rw [if_neg h] at hok
    simp only [Except.ok.injEq] at hok
    subst hok
    exact ⟨_, rfl, rfl, rfl, rfl, rfl⟩

/-- Witness for C2: the very first registration (on `emptyDB`) yields the
superadmin row of `bootDB`. -/
theorem createRestaurant_bootstrap_role_witness :
    ∃ u : User, bootDB.users = emptyDB.users ++ [u] ∧
      u.role = (if emptyDB.restaurants.length = 0 then Role.superadmin else Role.admin) ∧
      u.email = "a@x" ∧ u.restaurantId = "r1" ∧ u.id = "u1" :=
  createRestaurant_bootstrap_role emptyDB ⟨"R", "d", "p"⟩ ⟨"Ana", "a@x", "secret123"⟩
    "r1" "u1" bootDB (by decide)

end Asistent

namespace Asistent

/-- C5: when some user already holds email `e`, both user-creating paths —
`createRestaurant`'s admin insertion and `addUser` — throw their conflict
error, and the state (hence both tables) is untouched. -/
theorem duplicate_email_rejected (db : DB) (e : String)
    (hu : ∃ u ∈ db.users, u.email = e) :
    (∀ (rd : RestaurantData) (ad : AdminData) (rid uid : String), ad.email = e →
       createRestaurant db rd ad rid uid =
         Except.error "El correo electrónico ya está en uso por otro usuario en el sistema." ∧
       stateAfter db (createRestaurant db rd ad rid uid) = db) ∧
    (∀ (nd : NewUserData) (nid : String), nd.email = e →
       addUser db nd nid =
         Except.error "El correo electrónico ya está en uso en el sistema." ∧
       stateAfter db (addUser db nd nid) = db) := by
  have hpos := emailCount_pos db.users e hu
  constructor
  · intro rd ad rid uid he
    have herr : createRestaurant db rd ad rid uid =
        Except.error "El correo electrónico ya está en uso por otro usuario en el sistema." := by
      unfold createRestaurant
      rw [he, if_pos hpos]
    exact ⟨herr, by rw [herr]; rfl⟩
  · intro nd nid he
    have herr : addUser db nd nid =
        Except.error "El correo electrónico ya está en uso en el sistema." := by
      unfold addUser
      rw [he, if_pos hpos]
    exact ⟨herr, by rw [herr]; rfl⟩

/-- Witness for C5: `soloDB` already holds email `"s@x"`; a second
registration and a direct `addUser` with that email both throw and leave the
state unchanged. -/
theorem duplicate_email_rejected_witness :
    (createRestaurant soloDB ⟨"R2", "d", "p"⟩ ⟨"B", "s@x", "pw2"⟩ "r2" "u9" =
       Except.error "El correo electrónico ya está en uso por otro usuario en el sistema." ∧
     stateAfter soloDB (createRestaurant soloDB ⟨"R2", "d", "p"⟩ ⟨"B", "s@x", "pw2"⟩ "r2" "u9") =
       soloDB) ∧
    (addUser soloDB ⟨"B", "s@x", "pw2", Role.seller, "r1"⟩ "u9" =
       Except.error "El correo electrónico ya está en uso en el sistema." ∧
     stateAfter soloDB (addUser soloDB ⟨"B", "s@x", "pw2", Role.seller, "r1"⟩ "u9") = soloDB) :=
  have h := duplicate_email_rejected soloDB "s@x" ⟨soloSuper, by decide, by decide⟩
  ⟨h.1 ⟨"R2", "d", "p"⟩ ⟨"B", "s@x", "pw2"⟩ "r2" "u9" rfl,
   h.2 ⟨"B", "s@x", "pw2", Role.seller, "r1"⟩ "u9" rfl⟩

/-- C8: `updateUser` with a supplied email throws the conflict error (leaving
every user row unchanged) when a different user already holds that email, and
succeeds when the supplied email is the target's own current one (emails in
the table being pairwise distinct, as the schema's UNIQUE column guarantees). -/
theorem updateUser_email_rules (db : DB) (i : String) (d : UserUpdate) :
    (∀ e, d.email = some e → (∃ u ∈ db.users, u.id ≠ i ∧ u.email = e) →
       updateUser db i d =
         Except.error "El correo electrónico ya está en uso por otro usuario en el sistema." ∧
       stateAfter db (updateUser db i d) = db) ∧
    (uniqueEmails db.users → ∀ t, findUserById db.users i = some t →
       d.email = some t.email →
       updateUser db i d = Except.ok (updateUserWrite db i d)) := by
  constructor
  · rintro e he ⟨u, hm, hid, hemail⟩
    have herr : updateUser db i d =
        Except.error "El correo electrónico ya está en uso por otro usuario en el sistema." := by
      unfold updateUser
      simp only [he]
      cases hf : db.users.find? (fun v => decide (v.email = e ∧ v.id ≠ i)) with
      | none =>
        exfalso
        have hcontra := List.find?_eq_none.mp hf u hm
        simp [hemail, hid] at hcontra
      | some w => simp [hf]
    exact ⟨herr, by rw [herr]; rfl⟩
  · intro huniq t ht he
    obtain ⟨htm, hti⟩ := findUserById_some db.users i t ht
    have hnone : db.users.find? (fun v => decide (v.email = t.email ∧ v.id ≠ i)) = none := by
      apply List.find?_eq_none.mpr
      intro v hv
      simp only [decide_eq_true_eq, not_and, not_not]
      intro hve
      have hveq : v = t := huniq v hv t htm hve
      rw [hveq, hti]
    unfold updateUser
    simp only [he, hnone]

/-- Witness for C8 on `twoTenantDB`: moving `sellerB`'s email onto `adminA`'s
(`"a@x"`) throws; re-submitting its own email (`"s@x"`) succeeds. -/
theorem updateUser_email_rules_witness :
    (updateUser twoTenantDB "s1" ({ email := some "a@x" } : UserUpdate) =
       Except.error "El correo electrónico ya está en uso por otro usuario en el sistema.") ∧
    (updateUser twoTenantDB "s1" ({ email := some "s@x" } : UserUpdate) =
       Except.ok (updateUserWrite twoTenantDB "s1" ({ email := some "s@x" } : UserUpdate))) :=
  ⟨((updateUser_email_rules twoTenantDB "s1" ({ email := some "a@x" } : UserUpdate)).1
      "a@x" rfl ⟨adminA, by decide, by decide, by decide⟩).1,
   (updateUser_email_rules twoTenantDB "s1" ({ email := some "s@x" } : UserUpdate)).2
      (by unfold uniqueEmails; decide) sellerB (by decide) (by decide)⟩

end Asistent

namespace Asistent

/-- C3 counterexample: `crossDB`'s only user is `sellerA` (not a superadmin,
home restaurant `"A"`), yet the `"all"` scope hands back the product and the
sale of restaurant `"B"` — the list actions take no actor and reject nothing. -/
theorem scoped_lists_all_cross_tenant_cex :
    sellerA ∈ crossDB.users ∧ sellerA.role ≠ Role.superadmin ∧
    prodB ∈ getProductsForRestaurant crossDB "all" ∧
    prodB.restaurantId ≠ sellerA.restaurantId ∧
    saleB ∈ getSalesForRestaurant crossDB "all" ∧
    saleB.restaurantId ≠ sellerA.restaurantId := by decide

/-- C3 amended: the tenant-scoped list actions filter by the scope string
alone — any scope other than `"all"` yields only that restaurant's rows,
while the sentinel `"all"` returns the unfiltered table to every caller
(no actor-role check exists on this path). -/
theorem scoped_lists_filter_by_scope (db : DB) (rid : String) :
    (rid ≠ "all" →
      (∀ p ∈ getProductsForRestaurant db rid, p.restaurantId = rid) ∧
      (∀ s ∈ getSalesForRestaurant db rid, s.restaurantId = rid)) ∧
    getProductsForRestaurant db "all" = db.products ∧
    getSalesForRestaurant db "all" = db.sales := by
  refine ⟨fun hne => ⟨?_, ?_⟩, ?_, ?_⟩
  · intro p hp
    unfold getProductsForRestaurant at hp
    rw [if_neg hne] at hp
    exact of_decide_eq_true (List.mem_filter.mp hp).2
  · intro s hs
    unfold getSalesForRestaurant at hs
    rw [if_neg hne] at hs
    exact of_decide_eq_true (List.mem_filter.mp hs).2
  · unfold getProductsForRestaurant; rw [if_pos rfl]
  · unfold getSalesForRestaurant; rw [if_pos rfl]

/-- Witness for the amended C3: scoping `crossDB` to `"B"` only ever returns
rows of restaurant `"B"`. -/
theorem scoped_lists_filter_by_scope_witness :
    (∀ p ∈ getProductsForRestaurant crossDB "B", p.restaurantId = "B") ∧
    (∀ s ∈ getSalesForRestaurant crossDB "B", s.restaurantId = "B") :=
  (scoped_lists_filter_by_scope crossDB "B").1 (by decide)

/-- The superadmin-actor branch of the guard lets the deletion through
whenever the target is not a sole superadmin. -/
theorem deleteUserCheck_superadmin_none (us : List User) (t : User)
    (h : t.role = Role.superadmin → 2 ≤ countSuperadmins us) :
    deleteUserCheck us t (some Role.superadmin) = none := by
  unfold deleteUserCheck
  rw [if_pos rfl]
  by_cases ht : t.role = Role.superadmin
  · rw [if_pos ht, if_neg (by have := h ht; omega)]
  · rw [if_neg ht]

/-- The admin-actor branch of the guard passes exactly when the target is a
seller or waiter whose restaurant keeps at least one further user — the
target's restaurant, not the actor's. -/
theorem deleteUserCheck_admin_iff (us : List User) (t : User) :
    deleteUserCheck us t (some Role.admin) = none ↔
      ((t.role = Role.seller ∨ t.role = Role.waiter) ∧
        2 ≤ countUsersInRestaurant us t.restaurantId) := by
  unfold deleteUserCheck
  rw [if_neg (by simp : ¬(some Role.admin = some Role.superadmin)), if_pos rfl]
  by_cases h2 : t.role = Role.admin ∨ t.role = Role.superadmin
  · rw [if_pos h2]
    constructor
    · intro h; simp at h
    · rintro ⟨hr, -⟩
      exfalso
      rcases hr with h | h <;> rcases h2 with h' | h' <;> rw [h] at h' <;> cases h'
  · rw [if_neg h2]
    by_cases h3 : countUsersInRestaurant us t.restaurantId ≤ 1
    · rw [if_pos h3]
      constructor
      · intro h; simp at h
      · rintro ⟨-, hc⟩; omega
    · rw [if_neg h3]
      constructor
      · intro _
        refine ⟨?_, by omega⟩
        cases ht : t.role with
        | superadmin => exact absurd (Or.inr ht) h2
        | admin => exact absurd (Or.inl ht) h2
        | seller => exact Or.inl rfl
        | waiter => exact Or.inr rfl
      · intro _; rfl

/-- C4 counterexample: in `twoTenantDB` the acting user `adminA` (role admin,
restaurant `"A"`) successfully deletes `sellerB`, who belongs to the
different restaurant `"B"`. -/
theorem deleteUser_admin_cross_restaurant_cex :
    findUserById twoTenantDB.users "a1" = some adminA ∧ adminA.role = Role.admin ∧
    findUserById twoTenantDB.users "s1" = some sellerB ∧
    sellerB.restaurantId ≠ adminA.restaurantId ∧
    deleteUser twoTenantDB "s1" "a1" = Except.ok (performDelete twoTenantDB "s1") := by
  decide

/-- C4 amended: for an admin actor (and an existing, non-self target),
`deleteUser` succeeds exactly when the target's role is seller or waiter and
the target's restaurant has at least two users — whether or not the target
belongs to the acting admin's restaurant; admin and superadmin targets are
denied. -/
theorem deleteUser_admin_actor_rules (db : DB) (i cu : String) (a t : User)
    (hne : i ≠ cu)
    (hcur : findUserById db.users cu = some a) (harole : a.role = Role.admin)
    (hfind : findUserById db.users i = some t) :
    deleteUser db i cu = Except.ok (performDelete db i) ↔
      ((t.role = Role.seller ∨ t.role = Role.waiter) ∧
        2 ≤ countUsersInRestaurant db.users t.restaurantId) := by
  unfold deleteUser
  rw [if_neg hne]
  simp only [hfind, hcur, Option.map_some', harole]
  cases hch : deleteUserCheck db.users t (some Role.admin) with
  | some msg =>
    simp only [hch]
    constructor
    · intro h; exact Except.noConfusion h
    · intro hR
      exfalso
      rw [(deleteUserCheck_admin_iff db.users t).mpr hR] at hch
      exact Option.noConfusion hch
  | none =>
    simp only [hch]
    constructor
    · intro hx
      exact (deleteUserCheck_admin_iff db.users t).mp hch
    · intro hx
      trivial

/-- Witness for the amended C4: `adminA` deleting `sellerB` (restaurant `"B"`,
which has two users) goes through. -/
theorem deleteUser_admin_actor_rules_witness :
    deleteUser twoTenantDB "s1" "a1" = Except.ok (performDelete twoTenantDB "s1") :=
  (deleteUser_admin_actor_rules twoTenantDB "s1" "a1" adminA sellerB (by decide)
    (by decide) rfl (by decide)).mpr (by decide)

/-- C9: an acting superadmin deleting an existing, distinct target that is not
a sole superadmin always succeeds — in particular, when the target was the
last remaining user of its restaurant, that restaurant is left with zero
users. -/
theorem deleteUser_superadmin_actor_succeeds (db : DB) (i cu : String) (a t : User)
    (hne : i ≠ cu)
    (hcur : findUserById db.users cu = some a) (harole : a.role = Role.superadmin)
    (hfind : findUserById db.users i = some t)
    (hsole : t.role = Role.superadmin → 2 ≤ countSuperadmins db.users) :
    deleteUser db i cu = Except.ok (performDelete db i) ∧
      ((∀ u ∈ db.users, u.restaurantId = t.restaurantId → u.id = i) →
        ∀ u ∈ (performDelete db i).users, u.restaurantId ≠ t.restaurantId) := by
  constructor
  · unfold deleteUser
    rw [if_neg hne]
    have hcheck := deleteUserCheck_superadmin_none db.users t hsole
    simp only [hfind, hcur, Option.map_some', harole, hcheck]
  · intro hlast u hm
    simp only [performDelete] at hm
    have hmf := List.mem_filter.mp hm
    intro hreq
    exact of_decide_eq_true hmf.2 (hlast u hmf.1 hreq)

/-- Witness for C9: in `lastUserDB` the superadmin `superR1` deletes
`soleWaiterR2`, the last user of restaurant `"R2"`, leaving `"R2"` empty. -/
theorem deleteUser_superadmin_actor_succeeds_witness :
    deleteUser lastUserDB "w1" "sa1" = Except.ok (performDelete lastUserDB "w1") ∧
      ∀ u ∈ (performDelete lastUserDB "w1").users,
        u.restaurantId ≠ soleWaiterR2.restaurantId :=
  have h := deleteUser_superadmin_actor_succeeds lastUserDB "w1" "sa1" superR1 soleWaiterR2
    (by decide) (by decide) rfl (by decide) (by decide)
  ⟨h.1, h.2 (by decide)⟩

end Asistent

namespace Asistent

/-- The restaurant-row step of `updateRestaurant` never touches the users
table. -/
theorem restaurantWriteStep_users (db : DB) (i : String) (rd : Option RestaurantData) :
    (restaurantWriteStep db i rd).users = db.users := by
  cases rd <;> rfl

/-- C6 counterexample: the very first registration stores the admin's
password `"secret123"` verbatim — the persisted row's password equals the
supplied plaintext. -/
theorem createRestaurant_plaintext_cex :
    createRestaurant emptyDB ⟨"R", "d", "p"⟩ ⟨"Ana", "a@x", "secret123"⟩ "r1" "u1" =
      Except.ok bootDB ∧
    ∃ u ∈ bootDB.users, u.password = "secret123" := by decide

/-- C6 amended: on each user-writing path — `createRestaurant`'s admin
insertion, `addUser`, `updateUser` with a password field, and
`updateRestaurant`'s admin password change — the password persisted in the
users table is exactly the plaintext string supplied by the caller; no hash
is computed at write time. -/
theorem passwords_stored_plaintext (db : DB) :
    (∀ (rd : RestaurantData) (ad : AdminData) (rid uid : String) (db' : DB),
       createRestaurant db rd ad rid uid = Except.ok db' →
       ∃ u : User, db'.users = db.users ++ [u] ∧ u.password = ad.password) ∧
    (∀ (nd : NewUserData) (nid : String) (db' : DB),
       addUser db nd nid = Except.ok db' →
       ∃ u : User, db'.users = db.users ++ [u] ∧ u.password = nd.password) ∧
    (∀ (i : String) (d : UserUpdate) (p : String) (db' : DB),
       d.password = some p → updateUser db i d = Except.ok db' →
       ∀ v ∈ db'.users, v.id = i → v.password = p) ∧
    (∀ (i : String) (rd : Option RestaurantData) (a : AdminUpdate) (p : String) (db' : DB),
       a.password = some p → 6 ≤ p.length → a.id ≠ "" →
       updateRestaurant db i rd (some a) = Except.ok db' →
       ∀ v ∈ db'.users, v.id = a.id → v.password = p) := by
  refine ⟨?_, ?_, ?_, ?_⟩
  · intro rd ad rid uid db' hok
    unfold createRestaurant at hok
    by_cases h : emailCount db.users ad.email > 0
    · rw [if_pos h] at hok; cases hok
    · rw [if_neg h] at hok
      simp only [Except.ok.injEq] at hok
      subst hok
      exact ⟨_, rfl, rfl⟩
  · intro nd nid db' hok
    unfold addUser at hok
    by_cases h : emailCount db.users nd.email > 0
    · rw [if_pos h] at hok; cases hok
    · rw [if_neg h] at hok
      simp only [Except.ok.injEq] at hok
      subst hok
      exact ⟨_, rfl, rfl⟩
  · intro i d p db' hp hok
    have hwrite : db' = updateUserWrite db i d := by
      unfold updateUser at hok
      cases hd : d.email with
      | some e =>
        rw [hd] at hok
        cases hf : db.users.find? (fun v => decide (v.email = e ∧ v.id ≠ i)) with
        | some w =>
          simp only [hf] at hok
          exact Except.noConfusion hok
        | none =>
          simp only [hf, Except.ok.injEq] at hok
          exact hok.symm
      | none =>
        rw [hd] at hok
        simp only [Except.ok.injEq] at hok
        exact hok.symm
    subst hwrite
    intro v hv hvi
    simp only [updateUserWrite] at hv
    obtain ⟨w, hw, hfw⟩ := List.mem_map.mp hv
    by_cases hwi : w.id = i
    · rw [← hfw]
      simp [hwi, applyUserUpdate, hp]
    · rw [← hfw] at hvi
      rw [if_neg hwi] at hvi
      exact absurd hvi hwi
  · intro i rd a p db' hp hlen hid hok
    simp only [updateRestaurant] at hok
    rw [if_pos hid] at hok
    cases hf : (restaurantWriteStep db i rd).users.find?
        (fun u => decide (u.email = a.email ∧ u.id ≠ a.id)) with
    | some w =>
      simp only [hf] at hok
      exact Except.noConfusion hok
    | none =>
      simp only [hf, Except.ok.injEq] at hok
      subst hok
      intro v hv hvi
      simp only [adminEmailPasswordWrite] at hv
      obtain ⟨w, hw, hfw⟩ := List.mem_map.mp hv
      by_cases hwi : w.id = a.id
      · rw [← hfw]
        simp [hwi, adminPasswordValue, hp, hlen]
      · rw [← hfw] at hvi
        rw [if_neg hwi] at hvi
        exact absurd hvi hwi

/-- Witness for the amended C6: the plaintext `"secret123"` lands in `bootDB`
after the first registration, and an `updateUser` password change on `soloDB`
stores the plaintext `"newpw77"`. -/
theorem passwords_stored_plaintext_witness :
    (∃ u : User, bootDB.users = emptyDB.users ++ [u] ∧ u.password = "secret123") ∧
    (∀ v ∈ (updateUserWrite soloDB "u2" ({ password := some "newpw77" } : UserUpdate)).users,
       v.id = "u2" → v.password = "newpw77") :=
  ⟨(passwords_stored_plaintext emptyDB).1 ⟨"R", "d", "p"⟩ ⟨"Ana", "a@x", "secret123"⟩
     "r1" "u1" bootDB (by decide),
   (passwords_stored_plaintext soloDB).2.2.1 "u2"
     ({ password := some "newpw77" } : UserUpdate) "newpw77"
     (updateUserWrite soloDB "u2" ({ password := some "newpw77" } : UserUpdate)) rfl rfl⟩

/-- C7 counterexample: `addSale` persists `mismatchedSale` as-is: the stored
`totalPrice` 9999 differs from the items sum `itemsTotal` 2550 (items
10.00×2 + 5.50×1 = 25.50, in cents), yet the sale is stored. -/
theorem addSale_no_total_validation_cex :
    (addSale emptyDB mismatchedSale "v9").2 ∈ (addSale emptyDB mismatchedSale "v9").1.sales ∧
    (addSale emptyDB mismatchedSale "v9").2.totalPrice = 9999 ∧
    itemsTotal (addSale emptyDB mismatchedSale "v9").2.items = 2550 ∧
    (addSale emptyDB mismatchedSale "v9").2.totalPrice ≠
      itemsTotal (addSale emptyDB mismatchedSale "v9").2.items := by decide

/-- C7 amended: `addSale` appends the supplied sale unchanged under the fresh
id — the stored `totalPrice` and `items` are exactly the caller's values, and
no check relates `totalPrice` to the sum of `item.price × item.quantity`. -/
theorem addSale_persists_as_supplied (db : DB) (sd : SaleData) (nid : String) :
    (addSale db sd nid).1.sales = db.sales ++ [(addSale db sd nid).2] ∧
    (addSale db sd nid).2.totalPrice = sd.totalPrice ∧
    (addSale db sd nid).2.items = sd.items :=
  ⟨rfl, rfl, rfl⟩

/-- `findUserById` commutes with an id-preserving row transformation. -/
theorem findUserById_map_of_id_preserving (us : List User) (f : User → User)
    (hf : ∀ w, (f w).id = w.id) (i : String) :
    findUserById (us.map f) i = (findUserById us i).map f := by
  induction us with
  | nil => rfl
  | cons w ws ih =>
    unfold findUserById at ih ⊢
    rw [List.map_cons]
    by_cases h : w.id = i
    · rw [List.find?_cons_of_pos _ (by simp [hf, h]),
        List.find?_cons_of_pos _ (by simp [h])]
      rfl
    · rw [List.find?_cons_of_neg _ (by simp [hf, h]),
        List.find?_cons_of_neg _ (by simp [h])]
      exact ih

/-- C10: `updateUser` accepts a `restaurantId` reassignment: it succeeds, the
target rows change in exactly the `restaurantId` field (all other fields and
all other rows untouched), and the target user is afterwards owned by the new
restaurant. -/
theorem updateUser_applies_restaurantId (db : DB) (i r : String) (u : User)
    (hu : findUserById db.users i = some u) :
    ∃ db' : DB, updateUser db i ({ restaurantId := some r } : UserUpdate) = Except.ok db' ∧
      db'.users =
        db.users.map (fun w => if w.id = i then { w with restaurantId := r } else w) ∧
      findUserById db'.users i = some { u with restaurantId := r } := by
  refine ⟨updateUserWrite db i ({ restaurantId := some r } : UserUpdate), rfl, rfl, ?_⟩
  have hf : ∀ w : User,
      ((fun w => if w.id = i
          then applyUserUpdate ({ restaurantId := some r } : UserUpdate) w else w) w).id =
        w.id := by
    intro w
    by_cases h : w.id = i <;> simp [h, applyUserUpdate]
  have hui : u.id = i := (findUserById_some db.users i u hu).2
  unfold updateUserWrite
  rw [findUserById_map_of_id_preserving db.users _ hf i, hu]
  simp only [Option.map_some']
  rw [if_pos hui]
  rfl

/-- Witness for C10: reassigning `soloSuper` (id `"u1"`) to restaurant
`"r9"` in `soloDB`. -/
theorem updateUser_applies_restaurantId_witness :
    ∃ db' : DB,
      updateUser soloDB "u1" ({ restaurantId := some "r9" } : UserUpdate) = Except.ok db' ∧
      db'.users =
        soloDB.users.map (fun w => if w.id = "u1" then { w with restaurantId := "r9" } else w) ∧
      findUserById db'.users "u1" = some { soloSuper with restaurantId := "r9" } :=
  updateUser_applies_restaurantId soloDB "u1" "r9" soloSuper (by decide)

end Asistent
